import Mathlib

/-! Shallow embedding of the mock HTTP server in
`test/mock-http-server/server.py` of the painlessMesh repository.

Pure request handling is translated into executable Lean functions.
Machine floats that only carry delays/timestamps are modelled as rationals;
time is modelled by a trace of sleep durations (the list of arguments the
handler passes to `time.sleep`, in order); writing a response to the socket
is modelled by an `Outcome` value; the process environment and the request
are explicit parameters. -/

/-- JSON values as produced by the json module: null, booleans, ints, floats
(modelled as rationals), strings, arrays, and objects with ordered fields. -/
inductive Json where
  | null
  | bool (b : Bool)
  | int (n : Int)
  | num (q : ℚ)
  | str (s : String)
  | arr (elems : List Json)
  | obj (fields : List (String × Json))

/-- Whitespace characters stripped by Python int()/float() string conversion
(ASCII subset). -/
def isPySpace (c : Char) : Bool :=
  c = ' ' || c = '\t' || c = '\n' || c = '\r' || c = '\x0b' || c = '\x0c'

/-- Strip leading and trailing whitespace from a character list. -/
def stripWS (cs : List Char) : List Char :=
  ((cs.dropWhile isPySpace).reverse.dropWhile isPySpace).reverse

/-- Numeric value of a run of decimal digits. -/
def digitsToNat (ds : List Char) : Nat :=
  ds.foldl (fun a c => a * 10 + (c.toNat - 48)) 0

/-- Model of Python int(string): optional surrounding whitespace, optional
sign, then a non-empty run of decimal digits; none models a ValueError
(digit-group underscores are not modelled). -/
def pyInt (s : String) : Option Int :=
  match stripWS s.toList with
  | [] => none
  | '+' :: r => if r ≠ [] ∧ r.all Char.isDigit then some (digitsToNat r : Int) else none
  | '-' :: r => if r ≠ [] ∧ r.all Char.isDigit then some (-(digitsToNat r : Int)) else none
  | cs => if cs.all Char.isDigit then some (digitsToNat cs : Int) else none

/-- Apply a base-10 exponent to a rational mantissa. -/
def applyExp (m : ℚ) (e : Int) : ℚ :=
  if 0 ≤ e then m * (10 : ℚ) ^ e.toNat else m / (10 : ℚ) ^ (-e).toNat

/-- Parse the exponent written after e/E in a float literal: optional sign
then a non-empty run of digits, consuming the whole rest. -/
def parseExpPart (cs : List Char) : Option Int :=
  match cs with
  | [] => none
  | '+' :: r => if r ≠ [] ∧ r.all Char.isDigit then some (digitsToNat r : Int) else none
  | '-' :: r => if r ≠ [] ∧ r.all Char.isDigit then some (-(digitsToNat r : Int)) else none
  | r => if r.all Char.isDigit then some (digitsToNat r : Int) else none

/-- Unsigned part of a Python float literal: integer digits, optional
fraction after a dot (at least one digit overall), optional exponent. -/
def pyFloatCore (cs : List Char) : Option ℚ :=
  let ip := cs.takeWhile Char.isDigit
  let rest := cs.dropWhile Char.isDigit
  match rest with
  | [] => if ip.isEmpty then none else some (digitsToNat ip : ℚ)
  | '.' :: r2 =>
      let fp := r2.takeWhile Char.isDigit
      let rest2 := r2.dropWhile Char.isDigit
      if ip.isEmpty ∧ fp.isEmpty then none
      else
        let mant : ℚ := (digitsToNat ip : ℚ) + (digitsToNat fp : ℚ) / (10 : ℚ) ^ fp.length
        match rest2 with
        | [] => some mant
        | 'e' :: r3 => (parseExpPart r3).map (applyExp mant)
        | 'E' :: r3 => (parseExpPart r3).map (applyExp mant)
        | _ => none
  | 'e' :: r3 => if ip.isEmpty then none else (parseExpPart r3).map (applyExp (digitsToNat ip : ℚ))
  | 'E' :: r3 => if ip.isEmpty then none else (parseExpPart r3).map (applyExp (digitsToNat ip : ℚ))
  | _ => none

/-- Model of Python float(string) on finite decimal literals: optional
surrounding whitespace and sign, digits with optional fraction and exponent;
none models a ValueError (inf/nan literals, digit-group underscores, and
rounding to binary64 are not modelled: values stay exact rationals). -/
def pyFloat (s : String) : Option ℚ :=
  match stripWS s.toList with
  | [] => none
  | '+' :: r => pyFloatCore r
  | '-' :: r => (pyFloatCore r).map Neg.neg
  | cs => pyFloatCore cs

/-- Model of os.getenv(key, default) over an association-list environment. -/
def pyGetenv (env : List (String × String)) (k d : String) : String :=
  match env.lookup k with
  | some v => v
  | none => d

/-- Model of str.split on a one-character separator: splitting keeps empty
fields, and the empty string yields one empty field. -/
def pySplitChar (sep : Char) : List Char → List (List Char)
  | [] => [[]]
  | c :: cs =>
    match pySplitChar sep cs with
    | [] => [[c]]
    | g :: gs => if c = sep then [] :: g :: gs else (c :: g) :: gs

/-- Model of urllib parse_qsl with the default keep_blank_values=False: split
the query on ampersand, split each piece at its first equals sign, and drop
pieces that have no equals sign or an empty value (percent-decoding and
plus-to-space decoding are not modelled). -/
def parseQsl (q : String) : List (String × String) :=
  (pySplitChar '&' q.toList).filterMap fun part =>
    match part.span (fun c => c != '=') with
    | (name, rest) =>
      match rest with
      | [] => none
      | _ :: v => if v.isEmpty then none else some (String.mk name, String.mk v)

/-- Add one key/value pair to the grouped query mapping, preserving
first-occurrence key order and appending repeated keys, as a Python dict of
lists does. -/
def addQsPair (acc : List (String × List String)) (kv : String × String) :
    List (String × List String) :=
  if acc.any (fun p => p.1 == kv.1) then
    acc.map fun p => if p.1 == kv.1 then (p.1, p.2 ++ [kv.2]) else p
  else acc ++ [(kv.1, [kv.2])]

/-- Model of urllib parse_qs: the pairs of parse_qsl grouped by key. -/
def parse_qs (q : String) : List (String × List String) :=
  (parseQsl q).foldl addQsPair []

/-- Model of query_params.get(key, [None])[0] on parse_qs output: the first
value listed for the key, none when the key is absent. -/
def pyGetFirst (qp : List (String × List String)) (k : String) : Option String :=
  match qp.find? (fun p => p.1 == k) with
  | some p => p.2.head?
  | none => none

/-- Model of str.strip applied with a slash argument: drop all leading and
trailing slash characters. -/
def stripSlashes (s : String) : String :=
  String.mk (((s.toList.dropWhile (fun c => c == '/')).reverse.dropWhile
    (fun c => c == '/')).reverse)

/-- String-level wrapper of the slash split. -/
def pySplit (s : String) : List String := (pySplitChar '/' s.toList).map String.mk

/-- Path and query of a request target, as urlparse separates them: the
fragment after a hash mark is discarded and the query starts at the first
question mark (netloc extraction for targets that begin with a double slash,
and params after a semicolon, are not modelled). -/
def urlPathQuery (target : String) : String × String :=
  let noFrag := (pySplitChar '#' target.toList).headD []
  match pySplitChar '?' noFrag with
  | [] => ("", "")
  | p :: rest => (String.mk p, String.mk (List.intercalate ['?'] rest))

/-- Model of MockHTTPHandler parse_path: path stripped of outer slashes and
split on slashes, plus the parsed query mapping. -/
def parse_path (target : String) : List String × List (String × List String) :=
  (pySplit (stripSlashes (urlPathQuery target).1), parse_qs (urlPathQuery target).2)

/-- One HTTP response as written to the socket: status line, headers in order,
and the body string whose UTF-8 bytes are sent. -/
structure Response where
  status : Int
  headers : List (String × String)
  body : String
  deriving DecidableEq

/-- Escape of backslash and double quote inside a JSON string literal
(control-character escapes are not modelled). -/
def jsonEscape (s : String) : String :=
  String.join (s.toList.map fun c =>
    if c = '"' then "\\\"" else if c = '\\' then "\\\\" else String.singleton c)

/-- Decimal rendering of a float value: integral values print with a trailing
".0" as in Python; the exact repr of non-integral binary floats is not
modelled and such values render as fractions. -/
def pyFloatRepr (q : ℚ) : String :=
  if q.den = 1 then toString q.num ++ ".0" else toString q

mutual
/-- Model of json.dumps with the default separators (the indent variant used
by the echo handler differs only in inter-token whitespace, not modelled). -/
def jsonDump : Json → String
  | .null => "null"
  | .bool true => "true"
  | .bool false => "false"
  | .int n => toString n
  | .num q => pyFloatRepr q
  | .str s => "\"" ++ jsonEscape s ++ "\""
  | .arr xs => "[" ++ jsonDumpList xs ++ "]"
  | .obj fs => "\x7b" ++ jsonDumpFields fs ++ "\x7d"

/-- Comma-separated rendering of JSON array elements. -/
def jsonDumpList : List Json → String
  | [] => ""
  | [x] => jsonDump x
  | x :: y :: xs => jsonDump x ++ ", " ++ jsonDumpList (y :: xs)

/-- Comma-separated rendering of JSON object fields. -/
def jsonDumpFields : List (String × Json) → String
  | [] => ""
  | [(k, v)] => "\"" ++ jsonEscape k ++ "\": " ++ jsonDump v
  | (k, v) :: f :: fs =>
      "\"" ++ jsonEscape k ++ "\": " ++ jsonDump v ++ ", " ++ jsonDumpFields (f :: fs)
end

/-- Keys of a JSON object, in order; other values have no keys. -/
def jsonKeys : Json → List String
  | .obj fs => fs.map Prod.fst
  | _ => []

/-- Value of a field of a JSON object; none on other values. -/
def jsonLookup : Json → String → Option Json
  | .obj fs, k => fs.lookup k
  | _, _ => none

/-- Model of MockHTTPHandler send_response for the calls that supply a body:
the fixed Content-Type, CORS and Server headers plus a Content-Length equal to
the byte length of the UTF-8 encoded body (every handler in the source passes
an explicit body, so the body-is-None default branch is dead and not
modelled). -/
def sendResponse (statusCode : Int) (contentType : String) (body : String) : Response :=
  ⟨statusCode,
   [("Content-Type", contentType),
    ("Access-Control-Allow-Origin", "*"),
    ("Server", "painlessMesh-MockServer/1.0"),
    ("Content-Length", toString body.utf8ByteSize)],
   body⟩

/-- One request as the handler sees it: method, raw target (path plus query),
headers, the decoded byte stream holding exactly the body bytes the client
sent, and the client address. -/
structure Request where
  method : String
  target : String
  headers : List (String × String)
  rawBody : String
  client : String
  deriving DecidableEq

/-- What a handling unit does to its connection: write a full response, return
without writing anything (the timeout scenario), or die on an uncaught
exception before a response is written. -/
inductive Outcome where
  | ok (r : Response)
  | hang
  | crash
  deriving DecidableEq

/-- Lower-case a string character by character. -/
def lowerStr (s : String) : String := String.mk (s.toList.map Char.toLower)

/-- Case-insensitive header lookup, as on the Python message object. -/
def ciLookup (hs : List (String × String)) (k : String) : Option String :=
  match hs.find? (fun p => lowerStr p.1 == lowerStr k) with
  | some p => some p.2
  | none => none

/-- Model of MockHTTPHandler read_body: take the Content-Length header
(absent means zero), read exactly that many bytes when positive and the empty
string otherwise; none models the uncaught ValueError on a non-numeric
Content-Length value. -/
def read_body (headers : List (String × String)) (raw : String) : Option String :=
  match ciLookup headers "Content-Length" with
  | none => some ""
  | some s =>
    match pyInt s with
    | none => none
    | some n => if 0 < n then some raw else some ""

/-- Body handed to the router: read from the stream only for POST requests,
None (inner none) for every other method. -/
def bodyStep (req : Request) : Option (Option String) :=
  if req.method = "POST" then (read_body req.headers req.rawBody).map some
  else some none

/-- Model of MockHTTPHandler handle_default: status from the MOCK_HTTP_STATUS
environment value read at request time; none models the uncaught ValueError
when that value is not an integer literal. -/
def handle_default (env : List (String × String)) (now : ℚ) : Option (Int × Json) :=
  match pyInt (pyGetenv env "MOCK_HTTP_STATUS" "200") with
  | none => none
  | some status =>
    some (status, Json.obj
      [("message", Json.str "painlessMesh Mock HTTP Server"),
       ("status", Json.str "ok"),
       ("timestamp", Json.num now)])

/-- Model of MockHTTPHandler handle_status: parse the segment as an integer,
reject values outside 100 to 599 with a 400 error body, otherwise answer with
exactly the requested status. -/
def handle_status (codeStr : String) (now : ℚ) : Int × Json :=
  match pyInt codeStr with
  | none =>
    (400, Json.obj
      [("error", Json.str "Invalid status code"),
       ("provided", Json.str codeStr)])
  | some code =>
    if code < 100 ∨ 599 < code then
      (400, Json.obj
        [("error", Json.str "Invalid status code"),
         ("provided", Json.str codeStr)])
    else
      (code, Json.obj
        [("requested_status", Json.int code),
         ("message", Json.str ("Mock response with status " ++ toString code)),
         ("timestamp", Json.num now)])

/-- Model of MockHTTPHandler handle_delay: parse the segment as a float,
reject values outside 0 to 300 with a 400 error body without sleeping,
otherwise sleep the requested duration and answer 200. The first component is
the trace of sleeps the handler performs. -/
def handle_delay (delayStr : String) (now : ℚ) : List ℚ × Int × Json :=
  match pyFloat delayStr with
  | none =>
    ([], 400, Json.obj
      [("error", Json.str ("Invalid delay: could not convert string to float: \x27"
          ++ delayStr ++ "\x27")),
       ("provided", Json.str delayStr)])
  | some d =>
    if d < 0 ∨ 300 < d then
      ([], 400, Json.obj
        [("error", Json.str "Invalid delay: Delay out of range"),
         ("provided", Json.str delayStr)])
    else
      ([d], 200, Json.obj
        [("message", Json.str ("Response delayed by " ++ pyFloatRepr d ++ " seconds")),
         ("delay", Json.num d),
         ("timestamp", Json.num now)])

/-- Model of MockHTTPHandler handle_echo: the response body mirrors method,
raw target, headers, parsed query, body (None renders as JSON null), client
address and timestamp. -/
def handle_echo (method target : String) (headers : List (String × String))
    (qp : List (String × List String)) (body : Option String) (client : String)
    (now : ℚ) : Json :=
  Json.obj
    [("method", Json.str method),
     ("path", Json.str target),
     ("headers", Json.obj (headers.map fun p => (p.1, Json.str p.2))),
     ("query_params", Json.obj (qp.map fun p => (p.1, Json.arr (p.2.map Json.str)))),
     ("body", match body with | none => Json.null | some s => Json.str s),
     ("client", Json.str client),
     ("timestamp", Json.num now)]

/-- Model of MockHTTPHandler handle_whatsapp: the first value of each of the
phone, apikey and text query parameters must be present and non-empty (the
Python truthiness test on the extracted value), otherwise a 400 error listing
the supplied keys; on success the text is cut to its first 50 characters plus
an ellipsis when longer than 50. -/
def handle_whatsapp (qp : List (String × List String)) (now : ℚ) : Int × Json :=
  let phone := (pyGetFirst qp "phone").getD ""
  let apikey := (pyGetFirst qp "apikey").getD ""
  let text := (pyGetFirst qp "text").getD ""
  if phone = "" ∨ apikey = "" ∨ text = "" then
    (400, Json.obj
      [("error", Json.str "Missing required parameters"),
       ("required", Json.arr [Json.str "phone", Json.str "apikey", Json.str "text"]),
       ("provided", Json.arr (qp.map fun p => Json.str p.1))])
  else
    (200, Json.obj
      [("message", Json.str "WhatsApp message queued successfully"),
       ("phone", Json.str phone),
       ("text", Json.str (if 50 < text.length then String.mk (text.toList.take 50) ++ "..."
         else text)),
       ("timestamp", Json.num now)])

/-- Model of MockHTTPHandler handle_health: uptime is the time elapsed since
the process-wide start time. -/
def handle_health (startTime now : ℚ) : Int × Json :=
  (200, Json.obj
    [("status", Json.str "healthy"),
     ("server", Json.str "painlessMesh-MockServer"),
     ("version", Json.str "1.0.0"),
     ("uptime", Json.num (now - startTime)),
     ("timestamp", Json.num now)])

/-- Model of MockHTTPHandler handle_not_found: 404 with the catalog of
routes. -/
def handle_not_found (target : String) : Int × Json :=
  (404, Json.obj
    [("error", Json.str "Endpoint not found"),
     ("path", Json.str target),
     ("available_endpoints", Json.arr
       [Json.str "/",
        Json.str "/status/\x7bcode\x7d",
        Json.str "/delay/\x7bseconds\x7d",
        Json.str "/timeout",
        Json.str "/echo",
        Json.str "/whatsapp",
        Json.str "/health"])])

/-- The routing chain of MockHTTPHandler handle_request after the global
delay: first matching rule wins; the timeout branch sleeps 3600 seconds and
returns without writing; every other branch writes one full response built by
the send helper. The first component is the trace of sleeps performed inside
the dispatched handler. -/
def dispatch (env : List (String × String)) (method target : String)
    (headers : List (String × String)) (pathParts : List String)
    (queryParams : List (String × List String)) (body : Option String)
    (client : String) (startTime now : ℚ) : List ℚ × Outcome :=
  if pathParts.isEmpty ∨ pathParts.headD "" = "" then
    match handle_default env now with
    | none => ([], Outcome.crash)
    | some p => ([], Outcome.ok (sendResponse p.1 "application/json" (jsonDump p.2)))
  else if pathParts.headD "" = "status" ∧ 1 < pathParts.length then
    ([], Outcome.ok (sendResponse (handle_status (pathParts.getD 1 "") now).1
      "application/json" (jsonDump (handle_status (pathParts.getD 1 "") now).2)))
  else if pathParts.headD "" = "delay" ∧ 1 < pathParts.length then
    ((handle_delay (pathParts.getD 1 "") now).1,
     Outcome.ok (sendResponse (handle_delay (pathParts.getD 1 "") now).2.1
       "application/json" (jsonDump (handle_delay (pathParts.getD 1 "") now).2.2)))
  else if pathParts.headD "" = "timeout" then
    ([3600], Outcome.hang)
  else if pathParts.headD "" = "echo" then
    ([], Outcome.ok (sendResponse 200 "application/json"
      (jsonDump (handle_echo method target headers queryParams body client now))))
  else if pathParts.headD "" = "whatsapp" then
    ([], Outcome.ok (sendResponse (handle_whatsapp queryParams now).1
      "application/json" (jsonDump (handle_whatsapp queryParams now).2)))
  else if pathParts.headD "" = "health" then
    ([], Outcome.ok (sendResponse (handle_health startTime now).1
      "application/json" (jsonDump (handle_health startTime now).2)))
  else
    ([], Outcome.ok (sendResponse (handle_not_found target).1
      "application/json" (jsonDump (handle_not_found target).2)))

/-- Model of MockHTTPHandler handle_request for GET/POST: parse the target,
read the body for POST, read MOCK_HTTP_DELAY from the environment at request
time and sleep it when positive, then dispatch on the first path segment. The
first component is the full trace of sleeps for the request. -/
def handle_request (env : List (String × String)) (req : Request)
    (startTime now : ℚ) : List ℚ × Outcome :=
  match bodyStep req with
  | none => ([], Outcome.crash)
  | some body =>
    match pyFloat (pyGetenv env "MOCK_HTTP_DELAY" "0") with
    | none => ([], Outcome.crash)
    | some d =>
      ((if 0 < d then [d] else []) ++
         (dispatch env req.method req.target req.headers (parse_path req.target).1
           (parse_path req.target).2 body req.client startTime now).1,
       (dispatch env req.method req.target req.headers (parse_path req.target).1
         (parse_path req.target).2 body req.client startTime now).2)

/-- Status of an outcome, when a response was written. -/
def outcomeStatus : Outcome → Option Int
  | Outcome.ok r => some r.status
  | _ => none

/-- Records that every header list built by the send helper satisfies the
response envelope invariant. -/
theorem sendResponse_inv (sc : Int) (ct body : String) :
    ((sendResponse sc ct body).headers.lookup "Content-Length"
        = some (toString body.utf8ByteSize)) ∧
    ((sendResponse sc ct body).headers.lookup "Access-Control-Allow-Origin" = some "*") ∧
    ((sendResponse sc ct body).headers.lookup "Content-Type" = some ct) ∧
    ((sendResponse sc ct body).headers.lookup "Server"
        = some "painlessMesh-MockServer/1.0") :=
  ⟨rfl, rfl, rfl, rfl⟩

/-- C1: for every path segment string, the status scenario answers with
exactly the parsed code and a requested_status/message/timestamp body when the
segment is an integer in 100..599, and with 400 and an Invalid-status-code
body naming the provided segment when it does not parse or is out of range. -/
theorem status_scenario_correct (s : String) (now : ℚ) :
    (∀ code : Int, pyInt s = some code → 100 ≤ code → code ≤ 599 →
      handle_status s now =
        (code, Json.obj
          [("requested_status", Json.int code),
           ("message", Json.str ("Mock response with status " ++ toString code)),
           ("timestamp", Json.num now)])) ∧
    ((pyInt s = none ∨ ∃ code : Int, pyInt s = some code ∧ (code < 100 ∨ 599 < code)) →
      handle_status s now =
        (400, Json.obj
          [("error", Json.str "Invalid status code"),
           ("provided", Json.str s)])) := by
  constructor
  · intro code hc h1 h2
    simp only [handle_status, hc]
    rw [if_neg (by omega)]
  · intro h
    rcases h with h | ⟨code, hc, hrange⟩
    · simp only [handle_status, h]
    · simp only [handle_status, hc]
      rw [if_pos hrange]

/-- Witness for C1 at the segments 404 and abc. -/
theorem status_scenario_correct_witness :
    handle_status "404" 0 =
      (404, Json.obj
        [("requested_status", Json.int 404),
         ("message", Json.str "Mock response with status 404"),
         ("timestamp", Json.num 0)]) ∧
    handle_status "abc" 0 =
      (400, Json.obj
        [("error", Json.str "Invalid status code"),
         ("provided", Json.str "abc")]) :=
  ⟨(status_scenario_correct "404" 0).1 404 (by decide) (by decide) (by decide),
   (status_scenario_correct "abc" 0).2 (Or.inl (by decide))⟩

/-- Looking up any key other than timestamp ignores a trailing timestamp
field. -/
theorem lookup_ts_last (k : String) (hk : k ≠ "timestamp")
    (ps : List (String × Json)) (x y : Json) :
    (ps ++ [("timestamp", x)]).lookup k = (ps ++ [("timestamp", y)]).lookup k := by
  induction ps with
  | nil =>
    simp only [List.nil_append, List.lookup]
    rw [beq_eq_false_iff_ne.mpr hk]
  | cons p ps ih =>
    simp only [List.cons_append, List.lookup]
    cases k == p.1 <;> simp [ih]

/-- C9: the status scenario is deterministic up to the timestamp: two
invocations on the same segment agree on the HTTP status, on the body key
set, and on every body field other than timestamp. -/
theorem status_deterministic_mod_timestamp (s : String) (t1 t2 : ℚ) :
    (handle_status s t1).1 = (handle_status s t2).1 ∧
    jsonKeys (handle_status s t1).2 = jsonKeys (handle_status s t2).2 ∧
    ∀ k : String, k ≠ "timestamp" →
      jsonLookup (handle_status s t1).2 k = jsonLookup (handle_status s t2).2 k := by
  cases hc : pyInt s with
  | none =>
    refine ⟨?_, ?_, fun k hk => ?_⟩ <;> simp only [handle_status, hc]
  | some code =>
    by_cases hr : code < 100 ∨ 599 < code
    · refine ⟨?_, ?_, fun k hk => ?_⟩ <;>
        simp only [handle_status, hc, if_pos hr]
    · refine ⟨?_, ?_, ?_⟩
      · simp only [handle_status, hc, if_neg hr]
      · simp [handle_status, hc, if_neg hr, jsonKeys]
      · intro k hk
        simp only [handle_status, hc, if_neg hr]
        exact lookup_ts_last k hk
          [("requested_status", Json.int code),
           ("message", Json.str ("Mock response with status " ++ toString code))]
          (Json.num t1) (Json.num t2)

/-- Witness for C9 at the segment 404 and two distinct timestamps. -/
theorem status_deterministic_witness :
    jsonLookup (handle_status "404" 0).2 "message"
      = jsonLookup (handle_status "404" 1).2 "message" :=
  (status_deterministic_mod_timestamp "404" 0 1).2.2 "message" (by decide)

/-- C4: the whatsapp scenario answers 400 with the Missing-required-parameters
body listing the supplied keys exactly when one of phone, apikey, text is
missing or empty, and otherwise answers 200 echoing the phone and the text
truncated to 50 characters plus an ellipsis when longer. -/
theorem whatsapp_scenario (qp : List (String × List String)) (now : ℚ) :
    (((pyGetFirst qp "phone").getD "" = "" ∨ (pyGetFirst qp "apikey").getD "" = "" ∨
        (pyGetFirst qp "text").getD "" = "") →
      handle_whatsapp qp now =
        (400, Json.obj
          [("error", Json.str "Missing required parameters"),
           ("required", Json.arr [Json.str "phone", Json.str "apikey", Json.str "text"]),
           ("provided", Json.arr (qp.map fun p => Json.str p.1))])) ∧
    (∀ p a t : String, pyGetFirst qp "phone" = some p → p ≠ "" →
      pyGetFirst qp "apikey" = some a → a ≠ "" →
      pyGetFirst qp "text" = some t → t ≠ "" →
      handle_whatsapp qp now =
        (200, Json.obj
          [("message", Json.str "WhatsApp message queued successfully"),
           ("phone", Json.str p),
           ("text", Json.str (if 50 < t.length then String.mk (t.toList.take 50) ++ "..."
             else t)),
           ("timestamp", Json.num now)])) := by
  constructor
  · intro h
    simp only [handle_whatsapp]
    rw [if_pos h]
  · intro p a t hp hpne ha hane ht htne
    simp only [handle_whatsapp, hp, ha, ht, Option.getD_some]
    rw [if_neg (by rintro (h | h | h) <;> contradiction)]

/-- Witness for C4 with all parameters supplied and with none supplied. -/
theorem whatsapp_scenario_witness :
    handle_whatsapp [("phone", ["123"]), ("apikey", ["abc"]), ("text", ["hi"])] 0 =
      (200, Json.obj
        [("message", Json.str "WhatsApp message queued successfully"),
         ("phone", Json.str "123"),
         ("text", Json.str "hi"),
         ("timestamp", Json.num 0)]) ∧
    handle_whatsapp [] 0 =
      (400, Json.obj
        [("error", Json.str "Missing required parameters"),
         ("required", Json.arr [Json.str "phone", Json.str "apikey", Json.str "text"]),
         ("provided", Json.arr [])]) :=
  ⟨(whatsapp_scenario [("phone", ["123"]), ("apikey", ["abc"]), ("text", ["hi"])] 0).2
      "123" "abc" "hi" (by decide) (by decide) (by decide) (by decide) (by decide) (by decide),
   (whatsapp_scenario [] 0).1 (Or.inl (by decide))⟩

/-- C5: for every path segment string, the delay scenario sleeps exactly the
parsed duration and answers 200 with a message/delay/timestamp body when the
segment is a float in 0..300, and answers 400 with an error body and performs
no sleep when the segment does not parse or is out of range. -/
theorem delay_scenario_correct (s : String) (now : ℚ) :
    (∀ v : ℚ, pyFloat s = some v → 0 ≤ v → v ≤ 300 →
      handle_delay s now =
        ([v], 200, Json.obj
          [("message", Json.str ("Response delayed by " ++ pyFloatRepr v ++ " seconds")),
           ("delay", Json.num v),
           ("timestamp", Json.num now)])) ∧
    (pyFloat s = none →
      handle_delay s now =
        ([], 400, Json.obj
          [("error", Json.str ("Invalid delay: could not convert string to float: \x27"
              ++ s ++ "\x27")),
           ("provided", Json.str s)])) ∧
    (∀ v : ℚ, pyFloat s = some v → (v < 0 ∨ 300 < v) →
      handle_delay s now =
        ([], 400, Json.obj
          [("error", Json.str "Invalid delay: Delay out of range"),
           ("provided", Json.str s)])) := by
  refine ⟨?_, ?_, ?_⟩
  · intro v hv h0 h300
    simp only [handle_delay, hv]
    rw [if_neg (by rintro (h | h) <;> linarith)]
  · intro h
    simp only [handle_delay, h]
  · intro v hv hr
    simp only [handle_delay, hv]
    rw [if_pos hr]

/-- Witness for C5 at the segments 5 and oops. -/
theorem delay_scenario_correct_witness :
    handle_delay "5" 0 =
      ([5], 200, Json.obj
        [("message", Json.str "Response delayed by 5.0 seconds"),
         ("delay", Json.num 5),
         ("timestamp", Json.num 0)]) ∧
    handle_delay "oops" 0 =
      ([], 400, Json.obj
        [("error", Json.str "Invalid delay: could not convert string to float: \x27oops\x27"),
         ("provided", Json.str "oops")]) :=
  ⟨(delay_scenario_correct "5" 0).1 5 (by decide) (by decide) (by decide),
   (delay_scenario_correct "oops" 0).2.1 (by decide)⟩

/-- Unfolding of the request handler once the body read and the environment
delay parse are known to succeed. -/
theorem handle_request_run (env : List (String × String)) (req : Request)
    (startTime now : ℚ) (body : Option String) (d : ℚ)
    (hb : bodyStep req = some body)
    (hd : pyFloat (pyGetenv env "MOCK_HTTP_DELAY" "0") = some d) :
    handle_request env req startTime now =
      ((if 0 < d then [d] else []) ++
         (dispatch env req.method req.target req.headers (parse_path req.target).1
           (parse_path req.target).2 body req.client startTime now).1,
       (dispatch env req.method req.target req.headers (parse_path req.target).1
         (parse_path req.target).2 body req.client startTime now).2) := by
  simp only [handle_request, hb, hd]

/-- A segment list whose first segment is timeout is routed to the timeout
branch: one 3600-second sleep and no response. -/
theorem dispatch_timeout {env : List (String × String)} {method target : String}
    {headers : List (String × String)} {pathParts : List String}
    {queryParams : List (String × List String)} {body : Option String}
    {client : String} {startTime now : ℚ}
    (h : pathParts.headD "" = "timeout") :
    dispatch env method target headers pathParts queryParams body client startTime now
      = ([3600], Outcome.hang) := by
  cases pathParts with
  | nil => simp at h
  | cons p rest =>
    simp only [List.headD_cons] at h
    subst h
    simp only [dispatch]
    rw [if_neg (by simp), if_neg (by simp), if_neg (by simp), if_pos (by simp)]

/-- A segment list whose first segment is empty is routed to the default
branch. -/
theorem dispatch_root {env : List (String × String)} {method target : String}
    {headers : List (String × String)} {pathParts : List String}
    {queryParams : List (String × List String)} {body : Option String}
    {client : String} {startTime now : ℚ}
    (h : pathParts.headD "" = "") :
    dispatch env method target headers pathParts queryParams body client startTime now
      = (match handle_default env now with
         | none => ([], Outcome.crash)
         | some p =>
             ([], Outcome.ok (sendResponse p.1 "application/json" (jsonDump p.2)))) := by
  simp only [dispatch]
  rw [if_pos (Or.inr h)]

/-- A segment list of the form delay :: s :: rest is routed to the delay
branch with argument s. -/
theorem dispatch_delay {env : List (String × String)} {method target : String}
    {headers : List (String × String)} {pathParts : List String}
    {queryParams : List (String × List String)} {body : Option String}
    {client : String} {startTime now : ℚ} {s : String} {rest : List String}
    (h : pathParts = "delay" :: s :: rest) :
    dispatch env method target headers pathParts queryParams body client startTime now
      = ((handle_delay s now).1,
         Outcome.ok (sendResponse (handle_delay s now).2.1 "application/json"
           (jsonDump (handle_delay s now).2.2))) := by
  subst h
  simp only [dispatch]
  rw [if_neg (by simp), if_neg (by simp),
    if_pos ⟨by simp, by simp only [List.length_cons]; omega⟩]
  simp [List.getD]

/-- A segment list whose first segment is echo is routed to the echo
branch. -/
theorem dispatch_echo {env : List (String × String)} {method target : String}
    {headers : List (String × String)} {pathParts : List String}
    {queryParams : List (String × List String)} {body : Option String}
    {client : String} {startTime now : ℚ}
    (h : pathParts.headD "" = "echo") :
    dispatch env method target headers pathParts queryParams body client startTime now
      = ([], Outcome.ok (sendResponse 200 "application/json"
          (jsonDump (handle_echo method target headers queryParams body client now)))) := by
  cases pathParts with
  | nil => simp at h
  | cons p rest =>
    simp only [List.headD_cons] at h
    subst h
    simp only [dispatch]
    rw [if_neg (by simp), if_neg (by simp), if_neg (by simp), if_neg (by simp),
      if_pos (by simp)]

/-- Every response the dispatcher writes is built by the send helper with the
application/json content type. -/
theorem dispatch_ok_shape {env : List (String × String)} {method target : String}
    {headers : List (String × String)} {pathParts : List String}
    {queryParams : List (String × List String)} {body : Option String}
    {client : String} {startTime now : ℚ} {r : Response}
    (h : (dispatch env method target headers pathParts queryParams body client
      startTime now).2 = Outcome.ok r) :
    ∃ sc b, r = sendResponse sc "application/json" b := by
  unfold dispatch at h
  repeat' split at h
  all_goals dsimp only at h
  all_goals first
    | exact Outcome.noConfusion h
    | (injection h with h3; exact ⟨_, _, h3.symm⟩)

/-- Every response the whole request handler writes is built by the send
helper with the application/json content type. -/
theorem handle_request_ok_shape {env : List (String × String)} {req : Request}
    {startTime now : ℚ} {r : Response}
    (h : (handle_request env req startTime now).2 = Outcome.ok r) :
    ∃ sc b, r = sendResponse sc "application/json" b := by
  unfold handle_request at h
  repeat' split at h
  all_goals dsimp only at h
  all_goals first
    | exact Outcome.noConfusion h
    | exact dispatch_ok_shape h

/-- C2: with a non-negative configured global delay, every request that gets
past the body read sleeps the global delay (when positive) before dispatch,
and on the delay scenario the global and route delays are additive: the total
slept time equals the global delay plus the requested seconds. -/
theorem global_delay_additive (env : List (String × String)) (req : Request)
    (startTime now : ℚ) (body : Option String) (d : ℚ)
    (hb : bodyStep req = some body)
    (hd : pyFloat (pyGetenv env "MOCK_HTTP_DELAY" "0") = some d)
    (hnn : 0 ≤ d) :
    (∃ rest : List ℚ,
      (handle_request env req startTime now).1 = (if 0 < d then [d] else []) ++ rest ∧
      ((if 0 < d then [d] else []) : List ℚ).sum = d) ∧
    (∀ s : String, ∀ segs : List String,
      (parse_path req.target).1 = "delay" :: s :: segs →
      ∀ v : ℚ, pyFloat s = some v → 0 ≤ v → v ≤ 300 →
      (handle_request env req startTime now).1.sum = d + v) := by
  have hsum : ((if 0 < d then [d] else []) : List ℚ).sum = d := by
    by_cases h : 0 < d
    · simp [h]
    · have h0 : d = 0 := le_antisymm (not_lt.mp h) hnn
      simp [h, h0]
  constructor
  · exact ⟨_, by rw [handle_request_run env req startTime now body d hb hd], hsum⟩
  · intro s segs hseg v hv h0 h300
    rw [handle_request_run env req startTime now body d hb hd]
    rw [dispatch_delay hseg]
    rw [(delay_scenario_correct s now).1 v hv h0 h300]
    simp [hsum]

/-- Witness for C2: a two-second global delay plus a five-second delay route
sleeps seven seconds in total. -/
theorem global_delay_additive_witness :
    (handle_request [("MOCK_HTTP_DELAY", "2")]
        ⟨"GET", "/delay/5", [], "", "client"⟩ 0 0).1.sum = 2 + 5 :=
  (global_delay_additive [("MOCK_HTTP_DELAY", "2")]
      ⟨"GET", "/delay/5", [], "", "client"⟩ 0 0 none 2 (by decide) (by decide)
      (by decide)).2 "5" [] (by decide) 5 (by decide) (by decide) (by decide)

/-- C3: a request routed to the timeout scenario writes nothing at all on the
connection: the handler sleeps the global delay and then 3600 seconds and
returns without producing a response. -/
theorem timeout_never_responds (env : List (String × String)) (req : Request)
    (startTime now : ℚ) (body : Option String) (d : ℚ)
    (hb : bodyStep req = some body)
    (hd : pyFloat (pyGetenv env "MOCK_HTTP_DELAY" "0") = some d)
    (ht : (parse_path req.target).1.headD "" = "timeout") :
    handle_request env req startTime now
      = ((if 0 < d then [d] else []) ++ [3600], Outcome.hang) := by
  rw [handle_request_run env req startTime now body d hb hd, dispatch_timeout ht]

/-- Witness for C3 at a GET request for the timeout route. -/
theorem timeout_never_responds_witness :
    handle_request [] ⟨"GET", "/timeout", [], "", "client"⟩ 0 0
      = ([3600], Outcome.hang) :=
  (timeout_never_responds [] ⟨"GET", "/timeout", [], "", "client"⟩ 0 0 none 0
      (by decide) (by decide) (by decide)).trans (by decide)

/-- C7: every response the request handler writes carries a Content-Length
equal to the UTF-8 byte length of its body, the CORS header with value
star, a Content-Type header, and the Server identification header. -/
theorem response_envelope_invariant (env : List (String × String)) (req : Request)
    (startTime now : ℚ) (r : Response)
    (h : (handle_request env req startTime now).2 = Outcome.ok r) :
    (r.headers.lookup "Content-Length" = some (toString r.body.utf8ByteSize)) ∧
    (r.headers.lookup "Access-Control-Allow-Origin" = some "*") ∧
    (r.headers.lookup "Content-Type" = some "application/json") ∧
    (r.headers.lookup "Server" = some "painlessMesh-MockServer/1.0") := by
  obtain ⟨sc, b, hr⟩ := handle_request_ok_shape h
  subst hr
  exact sendResponse_inv sc "application/json" b

set_option maxRecDepth 20000 in
/-- Witness for C7 on the echo route. -/
theorem response_envelope_invariant_witness :
    ((sendResponse 200 "application/json"
        (jsonDump (handle_echo "GET" "/echo" [] [] none "client" 0))).headers.lookup
      "Access-Control-Allow-Origin" = some "*") ∧
    ((sendResponse 200 "application/json"
        (jsonDump (handle_echo "GET" "/echo" [] [] none "client" 0))).headers.lookup
      "Server" = some "painlessMesh-MockServer/1.0") :=
  ⟨(response_envelope_invariant [] ⟨"GET", "/echo", [], "", "client"⟩ 0 0
      (sendResponse 200 "application/json"
        (jsonDump (handle_echo "GET" "/echo" [] [] none "client" 0))) (by decide)).2.1,
   (response_envelope_invariant [] ⟨"GET", "/echo", [], "", "client"⟩ 0 0
      (sendResponse 200 "application/json"
        (jsonDump (handle_echo "GET" "/echo" [] [] none "client" 0))) (by decide)).2.2.2⟩

/-- C8 counterexample: the status answered by the default scenario follows
the environment value in force when the request is handled, so it is not a
value captured once at process start: the same request against two different
request-time environments yields two different statuses. -/
theorem per_request_env_counterexample :
    outcomeStatus (handle_request [("MOCK_HTTP_STATUS", "503")]
        ⟨"GET", "/", [], "", "client"⟩ 0 0).2
      ≠ outcomeStatus (handle_request [] ⟨"GET", "/", [], "", "client"⟩ 0 0).2 := by
  decide

/-- C8 amended: host and port are fixed at startup, but MOCK_HTTP_DELAY and
MOCK_HTTP_STATUS are read from the environment on every request: the sleep
applied and the default-scenario status equal whatever those variables parse
to at request time. -/
theorem env_read_per_request (env : List (String × String)) (req : Request)
    (startTime now : ℚ) (body : Option String) (d : ℚ) (stat : Int)
    (hb : bodyStep req = some body)
    (hd : pyFloat (pyGetenv env "MOCK_HTTP_DELAY" "0") = some d)
    (hroot : (parse_path req.target).1.headD "" = "")
    (hstat : pyInt (pyGetenv env "MOCK_HTTP_STATUS" "200") = some stat) :
    (handle_request env req startTime now).1 = (if 0 < d then [d] else []) ∧
    ∃ r : Response, (handle_request env req startTime now).2 = Outcome.ok r ∧
      r.status = stat := by
  rw [handle_request_run env req startTime now body d hb hd, dispatch_root hroot]
  simp only [handle_default, hstat]
  exact ⟨by simp, ⟨_, rfl, rfl⟩⟩

/-- Witness for the amended C8: a request-time status of 418 is returned as
such by the default scenario. -/
theorem env_read_per_request_witness :
    ∃ r : Response, (handle_request [("MOCK_HTTP_STATUS", "418")]
        ⟨"GET", "/", [], "", "client"⟩ 0 0).2 = Outcome.ok r ∧ r.status = 418 :=
  (env_read_per_request [("MOCK_HTTP_STATUS", "418")]
      ⟨"GET", "/", [], "", "client"⟩ 0 0 none 0 418 (by decide) (by decide)
      (by decide) (by decide)).2

/-- C10: on the echo route, a GET request never reads the body and the echoed
body field is JSON null; a POST request reads the body, whose value is the
raw stream contents exactly when Content-Length is positive and the empty
string when the header is absent or zero, and the echoed body field is that
string. -/
theorem echo_body_semantics (env : List (String × String)) (req : Request)
    (startTime now : ℚ) (d : ℚ)
    (hd : pyFloat (pyGetenv env "MOCK_HTTP_DELAY" "0") = some d)
    (he : (parse_path req.target).1.headD "" = "echo") :
    (req.method = "GET" →
      handle_request env req startTime now =
        ((if 0 < d then [d] else []),
         Outcome.ok (sendResponse 200 "application/json"
           (jsonDump (handle_echo req.method req.target req.headers
             (parse_path req.target).2 none req.client now)))) ∧
      jsonLookup (handle_echo req.method req.target req.headers
        (parse_path req.target).2 none req.client now) "body" = some Json.null) ∧
    (∀ b : String, req.method = "POST" → read_body req.headers req.rawBody = some b →
      handle_request env req startTime now =
        ((if 0 < d then [d] else []),
         Outcome.ok (sendResponse 200 "application/json"
           (jsonDump (handle_echo req.method req.target req.headers
             (parse_path req.target).2 (some b) req.client now)))) ∧
      jsonLookup (handle_echo req.method req.target req.headers
        (parse_path req.target).2 (some b) req.client now) "body" = some (Json.str b)) ∧
    (ciLookup req.headers "Content-Length" = none →
      read_body req.headers req.rawBody = some "") ∧
    (∀ s : String, ciLookup req.headers "Content-Length" = some s → pyInt s = some 0 →
      read_body req.headers req.rawBody = some "") ∧
    (∀ s : String, ∀ n : Int, ciLookup req.headers "Content-Length" = some s →
      pyInt s = some n → 0 < n → read_body req.headers req.rawBody = some req.rawBody) := by
  refine ⟨?_, ?_, ?_, ?_, ?_⟩
  · intro hm
    have hb : bodyStep req = some none := by
      simp [bodyStep, hm]
    refine ⟨?_, rfl⟩
    rw [handle_request_run env req startTime now none d hb hd, dispatch_echo he]
    simp
  · intro b hm hr
    have hb : bodyStep req = some (some b) := by
      simp [bodyStep, hm, hr]
    refine ⟨?_, rfl⟩
    rw [handle_request_run env req startTime now (some b) d hb hd, dispatch_echo he]
    simp
  · intro hcl
    simp [read_body, hcl]
  · intro s hcl hn
    simp [read_body, hcl, hn]
  · intro s n hcl hn hpos
    simp only [read_body, hcl, hn]
    rw [if_pos hpos]

set_option maxRecDepth 20000 in
/-- Witness for C10: a GET echo request and a POST echo request with body. -/
theorem echo_body_semantics_witness :
    handle_request [] ⟨"GET", "/echo", [], "", "client"⟩ 0 0 =
      ([], Outcome.ok (sendResponse 200 "application/json"
        (jsonDump (handle_echo "GET" "/echo" [] [] none "client" 0)))) ∧
    read_body [("Content-Length", "5")] "hello" = some "hello" :=
  ⟨((echo_body_semantics [] ⟨"GET", "/echo", [], "", "client"⟩ 0 0 0 (by decide)
        (by decide)).1 (by decide)).1.trans (by decide),
   (echo_body_semantics [] ⟨"GET", "/echo", [("Content-Length", "5")], "hello", "client"⟩
        0 0 0 (by decide) (by decide)).2.2.2.2 "5" 5 (by decide) (by decide) (by decide)⟩

/-- The split never returns the empty list of groups. -/
theorem pySplitChar_ne_nil (sep : Char) (cs : List Char) : pySplitChar sep cs ≠ [] := by
  induction cs with
  | nil => simp [pySplitChar]
  | cons c cs ih =>
    simp only [pySplitChar]
    cases h : pySplitChar sep cs with
    | nil => simp
    | cons g gs => by_cases hc : c = sep <;> simp [hc]

/-- When the input does not begin with the separator, the first group of the
split is non-empty. -/
theorem pySplitChar_head_ne (sep : Char) (cs : List Char) (hcs : cs ≠ [])
    (hhead : cs.head? ≠ some sep) : (pySplitChar sep cs).headD [] ≠ [] := by
  cases cs with
  | nil => exact absurd rfl hcs
  | cons c cs =>
    have hc : c ≠ sep := fun he => hhead (by simp [he])
    simp only [pySplitChar]
    cases h : pySplitChar sep cs with
    | nil => simp
    | cons g gs => simp [hc]

/-- When the input does not end with the separator, the last group of the
split is non-empty. -/
theorem pySplitChar_last_ne (sep : Char) (cs : List Char) (hcs : cs ≠ [])
    (hlast : cs.getLast? ≠ some sep) : (pySplitChar sep cs).getLast? ≠ some [] := by
  induction cs with
  | nil => exact absurd rfl hcs
  | cons c cs ih =>
    simp only [pySplitChar]
    cases h : pySplitChar sep cs with
    | nil => exact absurd h (pySplitChar_ne_nil sep cs)
    | cons g gs =>
      dsimp only
      cases cs with
      | nil =>
        have hc : c ≠ sep := fun he => hlast (by simp [he])
        simp only [pySplitChar] at h
        injection h with h1 h2
        subst h1
        subst h2
        rw [if_neg hc]
        simp
      | cons c2 cs2 =>
        have hlast2 : (c2 :: cs2).getLast? ≠ some sep := by
          rwa [List.getLast?_cons_cons] at hlast
        have ihg := ih (by simp) hlast2
        rw [h] at ihg
        by_cases hc : c = sep
        · rw [if_pos hc, List.getLast?_cons_cons]
          exact ihg
        · rw [if_neg hc]
          cases gs with
          | nil => simp
          | cons g2 gs2 =>
            rw [List.getLast?_cons_cons]
            rw [List.getLast?_cons_cons] at ihg
            exact ihg

/-- A run of dropWhile never starts with a character satisfying the
predicate. -/
theorem head_dropWhile_false (p : Char → Bool) (l : List Char) (a : Char)
    (h : (l.dropWhile p).head? = some a) : p a = false := by
  induction l with
  | nil => simp [List.dropWhile] at h
  | cons c l ih =>
    rw [List.dropWhile_cons] at h
    by_cases hc : p c
    · rw [if_pos hc] at h; exact ih h
    · rw [if_neg hc] at h
      simp only [List.head?_cons, Option.some.injEq] at h
      subst h
      simpa using hc

/-- dropWhile keeps the last element of its input when its result is
non-empty. -/
theorem getLast_dropWhile (p : Char → Bool) (y : List Char)
    (h : y.dropWhile p ≠ []) : (y.dropWhile p).getLast? = y.getLast? := by
  induction y with
  | nil => simp [List.dropWhile] at h
  | cons c ys ih =>
    rw [List.dropWhile_cons]
    rw [List.dropWhile_cons] at h
    by_cases hc : p c
    · rw [if_pos hc] at h ⊢
      cases ys with
      | nil => simp [List.dropWhile] at h
      | cons c2 ys2 =>
        rw [List.getLast?_cons_cons]
        exact ih h
    · rw [if_neg hc]

/-- The stripped path never starts with a slash. -/
theorem stripSlashes_head (s : String) (a : Char)
    (h : (stripSlashes s).toList.head? = some a) : (a == '/') = false := by
  have hh : ((((s.toList.dropWhile (fun c => c == '/')).reverse.dropWhile
      (fun c => c == '/')).reverse).head? = some a) := h
  rw [List.head?_reverse] at hh
  have hz : (s.toList.dropWhile (fun c => c == '/')).reverse.dropWhile
      (fun c => c == '/') ≠ [] := by
    intro he; rw [he] at hh; simp at hh
  rw [getLast_dropWhile _ _ hz, List.getLast?_reverse] at hh
  exact head_dropWhile_false _ _ a hh

/-- The stripped path never ends with a slash. -/
theorem stripSlashes_last (s : String) (a : Char)
    (h : (stripSlashes s).toList.getLast? = some a) : (a == '/') = false := by
  have hh : ((((s.toList.dropWhile (fun c => c == '/')).reverse.dropWhile
      (fun c => c == '/')).reverse).getLast? = some a) := h
  rw [List.getLast?_reverse] at hh
  exact head_dropWhile_false _ _ a hh

/-- C6 counterexample: the extraction keeps interior empty segments and maps
the root path to a singleton empty segment, not to the empty sequence. -/
theorem segment_extraction_counterexample :
    ("" ∈ (parse_path "/echo//x").1) ∧ (parse_path "/").1 ≠ [] ∧
    (parse_path "/echo//x").1 = ["echo", "", "x"] ∧ (parse_path "/").1 = [""] := by
  decide

/-- C6 amended: the extraction strips outer slashes then splits, so it never
returns the empty sequence; an empty or root path yields the single empty
segment; and an empty first or last segment occurs only in that degenerate
case (interior empty segments from doubled slashes are preserved). -/
theorem segment_extraction_amended (target : String) :
    (parse_path target).1 ≠ [] ∧
    (stripSlashes (urlPathQuery target).1 = "" → (parse_path target).1 = [""]) ∧
    (((parse_path target).1.headD "" = "" ∨ (parse_path target).1.getLastD "" = "") →
      (parse_path target).1 = [""]) := by
  refine ⟨?_, ?_, ?_⟩
  · intro hmap
    exact pySplitChar_ne_nil '/' (stripSlashes (urlPathQuery target).1).toList
      (List.map_eq_nil_iff.mp hmap)
  · intro hsl
    show (pySplitChar '/' (stripSlashes (urlPathQuery target).1).toList).map String.mk
      = [""]
    rw [hsl]
    rfl
  · intro hor
    by_cases hsl : stripSlashes (urlPathQuery target).1 = ""
    · show (pySplitChar '/' (stripSlashes (urlPathQuery target).1).toList).map String.mk
        = [""]
      rw [hsl]
      rfl
    · exfalso
      have hne : (stripSlashes (urlPathQuery target).1).toList ≠ [] := by
        intro he
        exact hsl (by
          have := congrArg String.mk he
          simpa using this)
      have hhd : (stripSlashes (urlPathQuery target).1).toList.head? ≠ some '/' := by
        intro hh
        have := stripSlashes_head (urlPathQuery target).1 '/' hh
        simp at this
      have hls : (stripSlashes (urlPathQuery target).1).toList.getLast? ≠ some '/' := by
        intro hh
        have := stripSlashes_last (urlPathQuery target).1 '/' hh
        simp at this
      rcases hor with hh | hh
      · have hgne := pySplitChar_head_ne '/'
          (stripSlashes (urlPathQuery target).1).toList hne hhd
        obtain ⟨g, gs, hg⟩ : ∃ g gs, pySplitChar '/'
            (stripSlashes (urlPathQuery target).1).toList = g :: gs := by
          cases hpg : pySplitChar '/' (stripSlashes (urlPathQuery target).1).toList with
          | nil => exact absurd hpg (pySplitChar_ne_nil _ _)
          | cons g gs => exact ⟨g, gs, rfl⟩
        rw [hg] at hgne
        simp only [List.headD_cons] at hgne
        have hh2 : ((pySplitChar '/'
            (stripSlashes (urlPathQuery target).1).toList).map String.mk).headD "" = "" := hh
        rw [hg] at hh2
        simp only [List.map_cons, List.headD_cons] at hh2
        have : g = [] := by
          have := congrArg String.toList hh2
          simpa using this
        exact hgne this
      · have hgne := pySplitChar_last_ne '/'
          (stripSlashes (urlPathQuery target).1).toList hne hls
        have hh2 : ((pySplitChar '/'
            (stripSlashes (urlPathQuery target).1).toList).map String.mk).getLastD "" = "" := hh
        rw [List.getLastD_eq_getLast?, List.getLast?_map] at hh2
        cases hy : (pySplitChar '/' (stripSlashes (urlPathQuery target).1).toList).getLast? with
        | none =>
          obtain ⟨g, gs, hg⟩ : ∃ g gs, pySplitChar '/'
              (stripSlashes (urlPathQuery target).1).toList = g :: gs := by
            cases hpg : pySplitChar '/' (stripSlashes (urlPathQuery target).1).toList with
            | nil => exact absurd hpg (pySplitChar_ne_nil _ _)
            | cons g gs => exact ⟨g, gs, rfl⟩
          rw [hg, List.getLast?_cons] at hy
          exact Option.noConfusion hy
        | some g =>
          rw [hy] at hh2
          simp only [Option.map_some', Option.getD_some] at hh2
          have hgnil : g = [] := by
            have := congrArg String.toList hh2
            simpa using this
          exact hgne (by rw [hy, hgnil])

/-- Witness for the amended C6: at the root path the degenerate singleton
empty segment is produced. -/
theorem segment_extraction_amended_witness :
    (parse_path "/").1 = [""] :=
  (segment_extraction_amended "/").2.2 (Or.inl (by decide))
